import Mathlib

/-!
Shallow embedding of the Insight Query Client implemented by the function
`get_ossinsight` in `notebook/agentchat_oai_assistant_function_call.ipynb`.

The Python function issues one HTTP POST to a fixed endpoint and renders the
JSON answer into a multi-section text report.  JSON values are modelled by the
inductive `Json`; Python runtime exceptions that the function can raise
(`KeyError` on a missing dictionary key, `TypeError` on subscripting or
measuring a value of the wrong shape, `AttributeError` on calling `.get` on a
non-dictionary, `ValueError` when the response body is not JSON) are modelled
by `PyExn`, and fallible evaluation by `Except PyExn`.  The HTTP transport is
an explicit parameter `Request → Response`, and the list of issued requests is
returned alongside the result so that the claims about the outbound call can
be stated.
-/

/-- A JSON value, as produced by `response.json()` in the source. -/
inductive Json where
  | null
  | bool (b : Bool)
  | num (n : Int)
  | str (s : String)
  | arr (items : List Json)
  | obj (fields : List (String × Json))

/-- The Python exceptions the embedded code can raise. -/
inductive PyExn where
  | keyError (k : String)
  | typeError
  | attributeError
  | valueError
  deriving Repr, DecidableEq

/-- The single-quote character used by Python `repr` of strings. -/
def pySquote : String := String.singleton (Char.ofNat 39)

mutual

/-- Model of Python `repr` on JSON values (used by `str` on containers). -/
def pyRepr : Json → String
  | .null => "None"
  | .bool true => "True"
  | .bool false => "False"
  | .num n => toString n
  | .str s => pySquote ++ s ++ pySquote
  | .arr xs => "[" ++ String.intercalate ", " (pyReprList xs) ++ "]"
  | .obj fs => "\x7b" ++ String.intercalate ", " (pyReprFields fs) ++ "\x7d"

/-- `pyRepr` mapped over a list of values. -/
def pyReprList : List Json → List String
  | [] => []
  | x :: xs => pyRepr x :: pyReprList xs

/-- `pyRepr` of the key/value pairs of a dictionary. -/
def pyReprFields : List (String × Json) → List String
  | [] => []
  | (k, v) :: fs => (pySquote ++ k ++ pySquote ++ ": " ++ pyRepr v) :: pyReprFields fs

end

/-- Model of Python `str` on JSON values: the default string representation
used by `str(row)` and by f-string interpolation in the source. -/
def pyStr : Json → String
  | .str s => s
  | j => pyRepr j

/-- Python subscripting `d[k]` with a string key: returns the value stored
under the key of a dictionary, raises `KeyError` when the key is missing and
`TypeError` on any non-dictionary value. -/
def getItem : Json → String → Except PyExn Json
  | .obj fs, k =>
    match fs.lookup k with
    | some v => .ok v
    | none => .error (.keyError k)
  | _, _ => .error .typeError

/-- Python `d.get(k, None)`: the value stored under the key, `None` when the
key is missing, `AttributeError` when the receiver is not a dictionary. -/
def dictGet : Json → String → Except PyExn Json
  | .obj fs, k => .ok ((fs.lookup k).getD .null)
  | _, _ => .error .attributeError

/-- Python `len` on a JSON value. -/
def pyLen : Json → Except PyExn Nat
  | .arr xs => .ok xs.length
  | .str s => .ok s.length
  | .obj fs => .ok fs.length
  | _ => .error .typeError

/-- Python iteration over a JSON value: the elements of a list, the
single-character strings of a string, the keys of a dictionary. -/
def pyIter : Json → Except PyExn (List Json)
  | .arr xs => .ok xs
  | .str s => .ok (s.toList.map fun c => .str (String.singleton c))
  | .obj fs => .ok (fs.map fun kv => .str kv.1)
  | _ => .error .typeError

/-- Python `x is None` on a JSON value. -/
def pyIsNone : Json → Bool
  | .null => true
  | _ => false

/-- Python `x != ""` on a JSON value: false exactly on the empty string. -/
def pyNeEmptyString : Json → Bool
  | .str s => !(s == "")
  | _ => true

/-- An outbound HTTP request as issued by `requests.post(url, headers=headers,
json=data)` in the source. -/
structure Request where
  url : String
  headers : List (String × String)
  json : Json

/-- An HTTP response: its status code and its body parsed as JSON
(`none` when the body is not valid JSON, in which case `response.json()`
raises). -/
structure Response where
  status_code : Nat
  json : Option Json

/-- The fixed endpoint URL of the source. -/
def ossinsightUrl : String := "https://api.ossinsight.io/explorer/answer"

/-- The request `get_ossinsight` issues for a given question: the fixed URL,
the JSON content-type header, and the body `\x7b"question": question,
"ignoreCache": True\x7d`. -/
def ossinsightRequest (question : String) : Request :=
  { url := ossinsightUrl
    headers := [("Content-Type", "application/json")]
    json := Json.obj [("question", Json.str question), ("ignoreCache", Json.bool true)] }

/-- The success-path report construction of `get_ossinsight`: the
`report_components` list built from the parsed answer.  Mirrors the source
line by line, including the re-lookups of `answer['result']['rows']` and the
short-circuit of `answer.get('result', None) is None or
len(answer['result']['rows']) == 0`. -/
def formatAnswer (answer : Json) : Except PyExn (List String) := do
  let questionObj ← getItem answer "question"
  let title ← getItem questionObj "title"
  let comps0 := ["Question: " ++ pyStr title]
  let queryObj ← getItem answer "query"
  let sql ← getItem queryObj "sql"
  let comps1 := if pyNeEmptyString sql then comps0 ++ ["querySQL: " ++ pyStr sql] else comps0
  let resOpt ← dictGet answer "result"
  let result ←
    if pyIsNone resOpt then
      pure "Result: N/A"
    else do
      let resVal ← getItem answer "result"
      let rows ← getItem resVal "rows"
      let n ← pyLen rows
      if n == 0 then
        pure "Result: N/A"
      else do
        let resVal2 ← getItem answer "result"
        let rows2 ← getItem resVal2 "rows"
        let items ← pyIter rows2
        pure ("Result:\n  " ++ String.intercalate "\n  " (items.map pyStr))
  let comps2 := comps1 ++ [result]
  let errVal ← dictGet answer "error"
  let comps3 := if pyIsNone errVal then comps2 else comps2 ++ ["Error: " ++ pyStr errVal]
  pure comps3

/-- Handling of the HTTP response by `get_ossinsight`: on status 200 the JSON
body is parsed and formatted into the report joined by blank lines, otherwise
the plain-text failure message naming the URL and the status code is
returned. -/
def handleResponse (response : Response) : Except PyExn String :=
  if response.status_code = 200 then
    match response.json with
    | none => Except.error PyExn.valueError
    | some answer => (formatAnswer answer).map (String.intercalate "\n\n")
  else
    Except.ok ("Request to " ++ ossinsightUrl ++ " failed with status code: "
      ++ toString response.status_code)

/-- The whole function `get_ossinsight`: issues the single POST through the
given transport and handles the response.  The first component records the
requests issued during the call, in order. -/
def get_ossinsight (transport : Request → Response) (question : String) :
    List Request × Except PyExn String :=
  let request := ossinsightRequest question
  let response := transport request
  ([request], handleResponse response)

/-- The shape of the result field of a success-path Answer: absent, JSON
null, or a row list. -/
inductive ResultField where
  | absent
  | null
  | rows (rs : List Json)

/-- The shape of the error field of a success-path Answer: absent, JSON
null, or a value. -/
inductive ErrorField where
  | absent
  | null
  | val (j : Json)

/-- A success-path Answer in the shape the spec describes: a question title,
a SQL text, an optional row list and an optional error value. -/
structure AnswerModel where
  title : String
  sql : String
  result : ResultField
  error : ErrorField

/-- The dictionary entries contributed by the result field. -/
def ResultField.fields : ResultField → List (String × Json)
  | .absent => []
  | .null => [("result", Json.null)]
  | .rows rs => [("result", Json.obj [("rows", Json.arr rs)])]

/-- The dictionary entries contributed by the error field. -/
def ErrorField.fields : ErrorField → List (String × Json)
  | .absent => []
  | .null => [("error", Json.null)]
  | .val j => [("error", j)]

/-- The JSON body encoding a success-path Answer. -/
def AnswerModel.toJson (a : AnswerModel) : Json :=
  Json.obj ([("question", Json.obj [("title", Json.str a.title)]),
             ("query", Json.obj [("sql", Json.str a.sql)])]
    ++ a.result.fields ++ a.error.fields)

/-- The question section of the report, as the spec states it. -/
def questionSection (a : AnswerModel) : String := "Question: " ++ a.title

/-- The optional querySQL section of the report, as the spec states it:
present exactly when the SQL text is non-empty. -/
def sqlSections (a : AnswerModel) : List String :=
  if a.sql = "" then [] else ["querySQL: " ++ a.sql]

/-- The result section of the report, as the spec states it. -/
def resultSection (a : AnswerModel) : String :=
  match a.result with
  | .absent => "Result: N/A"
  | .null => "Result: N/A"
  | .rows rs =>
    if rs.isEmpty then "Result: N/A"
    else "Result:\n  " ++ String.intercalate "\n  " (rs.map pyStr)

/-- The optional error section of the report, as the spec states it: present
exactly when the error field is present and not null. -/
def errorSections (a : AnswerModel) : List String :=
  match a.error with
  | .absent => []
  | .null => []
  | .val j => if pyIsNone j then [] else ["Error: " ++ pyStr j]

/-- All sections of the report of a success-path Answer, in order. -/
def renderSections (a : AnswerModel) : List String :=
  [questionSection a] ++ sqlSections a ++ [resultSection a] ++ errorSections a

/-- On every success-path Answer, the report components computed by the
source are exactly the sections of the spec, in order. -/
theorem formatAnswer_toJson (a : AnswerModel) :
    formatAnswer a.toJson = Except.ok (renderSections a) := by
  obtain ⟨t, s, r, e⟩ := a
  cases r <;> cases e <;>
    simp [formatAnswer, AnswerModel.toJson, ResultField.fields, ErrorField.fields,
      getItem, dictGet, pyLen, pyIter, pyIsNone, pyNeEmptyString, pyStr,
      renderSections, questionSection, sqlSections, resultSection, errorSections,
      List.lookup, bind, Except.bind, pure, Except.pure] <;>
    split_ifs <;>
    simp_all [List.isEmpty_iff, List.length_eq_zero]

/-- Indenting every element before joining with a newline equals joining
with a newline-and-indent separator, on the accumulator version. -/
theorem intercalate_go_indent (t : List String) : ∀ a : String,
    String.intercalate.go ("  " ++ a) "\n" (t.map fun s => "  " ++ s)
      = "  " ++ String.intercalate.go a "\n  " t := by
  induction t with
  | nil => intro a; rfl
  | cons b t ih =>
    intro a
    show String.intercalate.go ("  " ++ a ++ "\n" ++ ("  " ++ b)) "\n" (t.map fun s => "  " ++ s)
      = "  " ++ String.intercalate.go (a ++ "\n  " ++ b) "\n  " t
    rw [← ih]
    congr 1
    rw [String.append_assoc, String.append_assoc, String.append_assoc,
      ← String.append_assoc (String.mk [Char.ofNat 10]) "  " b]
    rfl

/-- Indenting every element before joining with a newline equals joining
with a newline-and-indent separator. -/
theorem intercalate_indent (l : List String) (h : l ≠ []) :
    "  " ++ String.intercalate "\n  " l = String.intercalate "\n" (l.map fun s => "  " ++ s) := by
  cases l with
  | nil => exact absurd rfl h
  | cons a t =>
    show "  " ++ String.intercalate.go a "\n  " t
      = String.intercalate.go ("  " ++ a) "\n" (t.map fun s => "  " ++ s)
    rw [intercalate_go_indent]

/-- The first character of a string survives appending to its right. -/
theorem data_head_append (p x : String) (c : Char) (h : p.data.head? = some c) :
    (p ++ x).data.head? = some c := by
  rw [String.data_append]
  cases hp : p.data with
  | nil => rw [hp] at h; exact absurd h (by simp)
  | cons d l =>
    rw [hp] at h
    simp only [List.head?] at h
    simp [h]

/-- Strings whose first characters differ are different. -/
theorem ne_of_data_head (s₁ s₂ : String) (c₁ c₂ : Char)
    (h₁ : s₁.data.head? = some c₁) (h₂ : s₂.data.head? = some c₂) (hne : c₁ ≠ c₂) :
    s₁ ≠ s₂ := by
  intro h
  subst h
  rw [h₁] at h₂
  exact hne (Option.some.inj h₂)

/-- The result section always starts with the character R. -/
theorem resultSection_head (a : AnswerModel) :
    (resultSection a).data.head? = some (Char.ofNat 82) := by
  obtain ⟨t, s, r, e⟩ := a
  cases r with
  | absent => rfl
  | null => rfl
  | rows rs =>
    show (if rs.isEmpty then "Result: N/A"
      else "Result:\n  " ++ String.intercalate "\n  " (rs.map pyStr)).data.head? = _
    split_ifs
    · rfl
    · exact data_head_append "Result:\n  " _ _ rfl

/-- Every emitted error section starts with the character E. -/
theorem errorSections_head (a : AnswerModel) :
    ∀ x ∈ errorSections a, x.data.head? = some (Char.ofNat 69) := by
  obtain ⟨t, s, r, e⟩ := a
  cases e with
  | absent => simp [errorSections]
  | null => simp [errorSections]
  | val j =>
    show ∀ x ∈ (if pyIsNone j then ([] : List String) else ["Error: " ++ pyStr j]),
      x.data.head? = some (Char.ofNat 69)
    split_ifs
    · simp
    · intro x hx
      rw [List.mem_singleton] at hx
      subst hx
      exact data_head_append "Error: " _ _ rfl

/-- Whether an evaluation produced a text value rather than raising. -/
def returnsText : Except PyExn String → Bool
  | .ok _ => true
  | .error _ => false

/-- C1: for every parsed success-path Answer, the report returned by
`get_ossinsight` is the blank-line join of its emitted sections in the fixed
order: the Question section first, the querySQL section second when emitted,
the Result section third, and the Error section last when emitted; no other
sections or orderings occur. -/
theorem get_ossinsight_report_is_ordered_join (q : String) (a : AnswerModel) :
    (get_ossinsight (fun _ => Response.mk 200 (some a.toJson)) q).2
      = Except.ok (String.intercalate "\n\n"
          ([questionSection a] ++ sqlSections a ++ [resultSection a] ++ errorSections a)) := by
  show handleResponse (Response.mk 200 (some a.toJson)) = _
  simp [handleResponse, formatAnswer_toJson, renderSections, Except.map]

/-- C7: every invocation of `get_ossinsight` issues exactly one HTTP POST, to
the fixed URL, with the JSON content-type header, and with JSON body holding
exactly the input question and ignoreCache set to true. -/
theorem get_ossinsight_single_fixed_post (transport : Request → Response) (q : String) :
    (get_ossinsight transport q).1 = [ossinsightRequest q]
    ∧ (get_ossinsight transport q).1.length = 1
    ∧ ossinsightRequest q = Request.mk "https://api.ossinsight.io/explorer/answer"
        [("Content-Type", "application/json")]
        (Json.obj [("question", Json.str q), ("ignoreCache", Json.bool true)]) :=
  ⟨rfl, rfl, rfl⟩

/-- C8: two invocations of `get_ossinsight` with the same question whose
transports return the same fixed response produce identical request traces
and byte-identical returned texts. -/
theorem get_ossinsight_deterministic (t₁ t₂ : Request → Response) (q : String)
    (h : t₁ (ossinsightRequest q) = t₂ (ossinsightRequest q)) :
    get_ossinsight t₁ q = get_ossinsight t₂ q := by
  simp only [get_ossinsight, h]

/-- Witness for C8 at a concrete question and two transports that agree on
the issued request. -/
theorem get_ossinsight_deterministic_witness :
    get_ossinsight (fun _ => Response.mk 404 none) "Top 10 developers with the most followers"
      = get_ossinsight (fun r => Response.mk (if r.url = ossinsightUrl then 404 else 500) none)
          "Top 10 developers with the most followers" :=
  get_ossinsight_deterministic _ _ _ (by rfl)

/-- C9: `get_ossinsight` performs no validation of its question argument: for
every input string, the empty string included, the POST is issued with that
string as the question field and the result is produced by the same
response-handling rules. -/
theorem get_ossinsight_no_input_validation (transport : Request → Response) (q : String) :
    (get_ossinsight transport q).1 = [ossinsightRequest q]
    ∧ (ossinsightRequest q).json
        = Json.obj [("question", Json.str q), ("ignoreCache", Json.bool true)]
    ∧ (get_ossinsight transport q).2 = handleResponse (transport (ossinsightRequest q)) :=
  ⟨rfl, rfl, rfl⟩

/-- C10: every success-path report has at least two and at most four
sections, the Question section is always first and a Result section is
always present, whatever the contents of the Answer. -/
theorem get_ossinsight_section_count_bounds (a : AnswerModel) :
    ∃ comps, formatAnswer a.toJson = Except.ok comps
      ∧ 2 ≤ comps.length ∧ comps.length ≤ 4
      ∧ comps.head? = some ("Question: " ++ a.title)
      ∧ resultSection a ∈ comps := by
  have hs : (sqlSections a).length ≤ 1 := by
    unfold sqlSections; split_ifs <;> simp
  have he : (errorSections a).length ≤ 1 := by
    obtain ⟨t, s, r, e⟩ := a
    cases e with
    | absent => simp [errorSections]
    | null => simp [errorSections]
    | val j =>
      show (if pyIsNone j then ([] : List String) else ["Error: " ++ pyStr j]).length ≤ 1
      split_ifs <;> simp
  refine ⟨renderSections a, formatAnswer_toJson a, ?_, ?_, ?_, ?_⟩
  · simp only [renderSections, List.length_append, List.length_singleton]
    omega
  · simp only [renderSections, List.length_append, List.length_singleton]
    omega
  · simp [renderSections, questionSection]
  · simp [renderSections]

/-- C2: on any response whose status code is not 200, `get_ossinsight`
issues the single request, returns a plain text message (the same Except.ok
shape as a report, so no distinguishable error type), and that message
contains both the request URL and the numeric status code. -/
theorem get_ossinsight_non200_failure_text (transport : Request → Response) (q : String)
    (h : (transport (ossinsightRequest q)).status_code ≠ 200) :
    get_ossinsight transport q = ([ossinsightRequest q],
      Except.ok ("Request to " ++ ossinsightUrl ++ " failed with status code: "
        ++ toString (transport (ossinsightRequest q)).status_code))
    ∧ (∃ pre post, "Request to " ++ ossinsightUrl ++ " failed with status code: "
        ++ toString (transport (ossinsightRequest q)).status_code = pre ++ ossinsightUrl ++ post)
    ∧ (∃ pre, "Request to " ++ ossinsightUrl ++ " failed with status code: "
        ++ toString (transport (ossinsightRequest q)).status_code
        = pre ++ toString (transport (ossinsightRequest q)).status_code) := by
  refine ⟨?_, ⟨"Request to ",
      " failed with status code: " ++ toString (transport (ossinsightRequest q)).status_code,
      by simp [String.append_assoc]⟩,
    ⟨"Request to " ++ ossinsightUrl ++ " failed with status code: ", rfl⟩⟩
  simp only [get_ossinsight, handleResponse, if_neg h]

/-- Witness for C2 at a concrete mocked 404 response. -/
theorem get_ossinsight_non200_failure_text_witness :
    get_ossinsight (fun _ => Response.mk 404 none) "Top 10 developers with the most followers"
      = ([ossinsightRequest "Top 10 developers with the most followers"],
        Except.ok ("Request to " ++ ossinsightUrl ++ " failed with status code: "
          ++ toString (404 : Nat))) :=
  (get_ossinsight_non200_failure_text (fun _ => Response.mk 404 none)
    "Top 10 developers with the most followers" (by decide)).1

/-- The result section of the report as claim C3 words it: the marker text,
then a newline, then each row rendered by its default string representation,
indented, one row per line, in order. -/
def resultSpecSection (a : AnswerModel) : String :=
  match a.result with
  | .absent => "Result: N/A"
  | .null => "Result: N/A"
  | .rows rs =>
    if rs.isEmpty then "Result: N/A"
    else "Result:\n" ++ String.intercalate "\n" (rs.map fun r => "  " ++ pyStr r)

/-- The wording of claim C3 and the text the source builds agree. -/
theorem resultSpecSection_eq (a : AnswerModel) : resultSpecSection a = resultSection a := by
  obtain ⟨t, s, r, e⟩ := a
  cases r with
  | absent => rfl
  | null => rfl
  | rows rs =>
    cases rs with
    | nil => rfl
    | cons x l =>
      show (if (x :: l).isEmpty then "Result: N/A"
          else "Result:\n" ++ String.intercalate "\n" ((x :: l).map fun r => "  " ++ pyStr r))
        = (if (x :: l).isEmpty then "Result: N/A"
          else "Result:\n  " ++ String.intercalate "\n  " ((x :: l).map pyStr))
      rw [if_neg (by simp), if_neg (by simp)]
      rw [show ((x :: l).map fun r => "  " ++ pyStr r)
          = ((x :: l).map pyStr).map (fun s => "  " ++ s) from by rw [List.map_map]; rfl]
      rw [← intercalate_indent ((x :: l).map pyStr) (by simp)]
      rw [← String.append_assoc]
      rfl

/-- C3: for every success-path Answer, the Result section of the report is
exactly the N/A marker when the result is absent or null or its row list is
empty, and otherwise the marker, a newline, and each row rendered by its
default string representation, indented, one row per line, preserving the
order and count of the rows. -/
theorem get_ossinsight_result_section_spec (q : String) (a : AnswerModel) :
    (get_ossinsight (fun _ => Response.mk 200 (some a.toJson)) q).2
      = Except.ok (String.intercalate "\n\n"
          ([questionSection a] ++ sqlSections a ++ [resultSpecSection a] ++ errorSections a)) := by
  show handleResponse (Response.mk 200 (some a.toJson)) = _
  rw [resultSpecSection_eq]
  simp [handleResponse, formatAnswer_toJson, renderSections, Except.map]

/-- C4: the report contains a querySQL section, between the Question section
and the Result section, exactly when the SQL text is non-empty; when the SQL
text is empty no querySQL section occurs anywhere among the report
components. -/
theorem get_ossinsight_querySQL_iff_nonempty_sql (q : String) (a : AnswerModel) :
    ((get_ossinsight (fun _ => Response.mk 200 (some a.toJson)) q).2
      = Except.ok (String.intercalate "\n\n" ([questionSection a]
          ++ (if a.sql = "" then [] else ["querySQL: " ++ a.sql])
          ++ [resultSection a] ++ errorSections a)))
    ∧ (a.sql = "" → ∀ comps, formatAnswer a.toJson = Except.ok comps →
        ∀ v, ("querySQL: " ++ v) ∉ comps) := by
  constructor
  · show handleResponse (Response.mk 200 (some a.toJson)) = _
    simp [handleResponse, formatAnswer_toJson, renderSections, sqlSections, Except.map]
  · intro hs comps hcomps v hmem
    rw [formatAnswer_toJson] at hcomps
    have hc : comps = renderSections a := (Except.ok.inj hcomps).symm
    subst hc
    have hq : ("querySQL: " ++ v).data.head? = some (Char.ofNat 113) :=
      data_head_append "querySQL: " v _ rfl
    rw [renderSections, sqlSections, if_pos hs, List.append_nil] at hmem
    rcases List.mem_append.1 hmem with h2 | h3
    · rcases List.mem_append.1 h2 with h4 | h5
      · rw [List.mem_singleton] at h4
        exact ne_of_data_head _ _ _ _ hq (data_head_append "Question: " a.title _ rfl)
          (by decide) h4
      · rw [List.mem_singleton] at h5
        exact ne_of_data_head _ _ _ _ hq (resultSection_head a) (by decide) h5
    · exact ne_of_data_head _ _ _ _ hq (errorSections_head a _ h3) (by decide) rfl

/-- Witness for C4 at a concrete Answer with empty SQL text: its report
components carry no querySQL section. -/
theorem get_ossinsight_querySQL_iff_nonempty_sql_witness :
    ("querySQL: " ++ "SELECT 1") ∉ ["Question: t", "Result: N/A"] :=
  (get_ossinsight_querySQL_iff_nonempty_sql "q"
      (AnswerModel.mk "t" "" ResultField.absent ErrorField.absent)).2
    rfl ["Question: t", "Result: N/A"] rfl "SELECT 1"

/-- Every emitted querySQL section starts with the character q. -/
theorem sqlSections_head (a : AnswerModel) :
    ∀ x ∈ sqlSections a, x.data.head? = some (Char.ofNat 113) := by
  unfold sqlSections
  split_ifs
  · simp
  · intro x hx
    rw [List.mem_singleton] at hx
    subst hx
    exact data_head_append "querySQL: " _ _ rfl

/-- C5: for every success-path Answer, the report ends with an Error section
carrying the error value exactly when the error field is present and
non-null; when the error field is absent or null no Error section occurs
among the report components. -/
theorem get_ossinsight_error_section_iff (a : AnswerModel) :
    (∀ j, a.error = ErrorField.val j → pyIsNone j = false →
      formatAnswer a.toJson
        = Except.ok ([questionSection a] ++ sqlSections a ++ [resultSection a]
            ++ ["Error: " ++ pyStr j]))
    ∧ ((a.error = ErrorField.absent ∨ a.error = ErrorField.null
          ∨ a.error = ErrorField.val Json.null) →
      formatAnswer a.toJson
        = Except.ok ([questionSection a] ++ sqlSections a ++ [resultSection a])
      ∧ ∀ comps, formatAnswer a.toJson = Except.ok comps →
          ∀ v, ("Error: " ++ v) ∉ comps) := by
  constructor
  · intro j hj hnull
    rw [formatAnswer_toJson]
    simp [renderSections, errorSections, hj, hnull]
  · intro hd
    have he : errorSections a = [] := by
      rcases hd with h | h | h <;> simp [errorSections, h, pyIsNone]
    refine ⟨by rw [formatAnswer_toJson]; simp [renderSections, he], ?_⟩
    intro comps hcomps v hmem
    rw [formatAnswer_toJson] at hcomps
    have hc : comps = renderSections a := (Except.ok.inj hcomps).symm
    subst hc
    have hEv : ("Error: " ++ v).data.head? = some (Char.ofNat 69) :=
      data_head_append "Error: " v _ rfl
    rw [renderSections, he, List.append_nil] at hmem
    rcases List.mem_append.1 hmem with h2 | h3
    · rcases List.mem_append.1 h2 with h4 | h5
      · rw [List.mem_singleton] at h4
        exact ne_of_data_head _ _ _ _ hEv (data_head_append "Question: " a.title _ rfl)
          (by decide) h4
      · exact ne_of_data_head _ _ _ _ hEv (sqlSections_head a _ h5) (by decide) rfl
    · rw [List.mem_singleton] at h3
      exact ne_of_data_head _ _ _ _ hEv (resultSection_head a) (by decide) h3

/-- Witness for C5 at a concrete Answer carrying a non-null error value. -/
theorem get_ossinsight_error_section_iff_witness :
    formatAnswer (AnswerModel.mk "t" "" ResultField.absent
        (ErrorField.val (Json.str "boom"))).toJson
      = Except.ok ["Question: t", "Result: N/A", "Error: boom"] :=
  (get_ossinsight_error_section_iff
      (AnswerModel.mk "t" "" ResultField.absent (ErrorField.val (Json.str "boom")))).1
    (Json.str "boom") rfl rfl

/-- Counterexample to C6 as stated: a 200 response whose JSON body is an
empty object makes `get_ossinsight` raise a KeyError instead of returning a
text value. -/
theorem get_ossinsight_raises_on_malformed_body :
    (get_ossinsight (fun _ => Response.mk 200 (some (Json.obj [])))
        "Top 10 developers with the most followers").2
      = Except.error (PyExn.keyError "question")
    ∧ returnsText (get_ossinsight (fun _ => Response.mk 200 (some (Json.obj [])))
        "Top 10 developers with the most followers").2 = false :=
  ⟨rfl, rfl⟩

/-- C6 amended: `get_ossinsight` returns a text value on every non-200
response, and on every 200 response whose JSON body has the success-path
Answer shape; malformed 200 bodies are not covered and raise. -/
theorem get_ossinsight_text_on_wellformed (transport : Request → Response) (q : String) :
    ((transport (ossinsightRequest q)).status_code ≠ 200 →
      returnsText (get_ossinsight transport q).2 = true)
    ∧ (∀ a : AnswerModel, transport (ossinsightRequest q) = Response.mk 200 (some a.toJson) →
      returnsText (get_ossinsight transport q).2 = true) := by
  constructor
  · intro h
    show returnsText (handleResponse (transport (ossinsightRequest q))) = true
    rw [handleResponse, if_neg h]
    rfl
  · intro a ha
    show returnsText (handleResponse (transport (ossinsightRequest q))) = true
    rw [ha]
    show returnsText (handleResponse (Response.mk 200 (some a.toJson))) = true
    simp [handleResponse, formatAnswer_toJson, Except.map, returnsText]

/-- Witness for the amended C6 at a concrete mocked 500 response. -/
theorem get_ossinsight_text_on_wellformed_witness :
    returnsText (get_ossinsight (fun _ => Response.mk 500 none)
      "Top 10 developers with the most followers").2 = true :=
  (get_ossinsight_text_on_wellformed (fun _ => Response.mk 500 none)
    "Top 10 developers with the most followers").1 (by decide)
